import Mathlib

/-!
Verification development for a local CLI code-analysis tool.

The tool scans source files line by line for hard-coded secrets and common
code-quality issues, estimates a bounded complexity score, and derives
suggestions.  The embedding below translates the two code units that carry
the decision logic:

* `CodeAnalyzer` (secret patterns, common-issue patterns, per-line scanning);
* `FileService` (complexity heuristic, per-file orchestration with size limit
  and feature toggles, suggestion derivation, batch analysis, safe read).

File-system effects (reads, stat, existence checks, directory enumeration)
are modelled as explicit inputs: a read is an `Except String String`
(error message or content), a file size is a `Nat`, existence is a `Bool`.

The JavaScript regular expressions are embedded as nondeterministic prefix
matchers over `List Char`.  A matcher returns the list of possible remainders
after consuming a matching prefix, ordered by the backtracking priority of the
JS engine (greedy quantifiers try longest first, alternatives in written
order), so the head of the returned list is the match the engine commits to.
`RegExp.prototype.test` is existence of a match at some position;
`String.prototype.match` with the global flag is modelled by the scanning
loop `countMatches` (advance past each committed match, bump by one character
on failure or on an empty match, exactly the `lastIndex` discipline).
-/

/-- A nondeterministic prefix matcher: all remainders after a matching
prefix, highest backtracking priority first. -/
def Matcher : Type := List Char → List (List Char)

/-- Empty pattern: consumes nothing. -/
def mEps : Matcher := fun s => [s]

/-- Single character from a class. -/
def mCh (p : Char → Bool) : Matcher := fun s =>
  match s with
  | [] => []
  | c :: rest => if p c then [rest] else []

/-- Concatenation of two patterns, preserving priority order. -/
def mSeq (a b : Matcher) : Matcher := fun s => (a s).flatMap b

/-- Alternation: the left alternative has priority, as in JS. -/
def mAlt (a b : Matcher) : Matcher := fun s => a s ++ b s

/-- Greedy optional (`?`): matching is preferred over skipping. -/
def mOpt (a : Matcher) : Matcher := fun s => a s ++ [s]

/-- Greedy star over a character class (`[...]*`): remainders ordered by
decreasing number of consumed characters. -/
def mStarCh (p : Char → Bool) : Matcher := fun s =>
  match s with
  | [] => [[]]
  | c :: rest => if p c then mStarCh p rest ++ [c :: rest] else [c :: rest]

/-- Greedy plus over a character class (`[...]+`). -/
def mPlusCh (p : Char → Bool) : Matcher := mSeq (mCh p) (mStarCh p)

/-- Exactly `n` characters of a class. -/
def mRep (p : Char → Bool) : Nat → Matcher
  | 0 => mEps
  | n + 1 => mSeq (mCh p) (mRep p n)

/-- At least `n` characters of a class (`{n,}`), greedy. -/
def mAtLeast (p : Char → Bool) (n : Nat) : Matcher :=
  mSeq (mRep p n) (mStarCh p)

/-- ASCII lower-casing, the case folding relevant to the `i` flag on the
ASCII-only patterns of this code base. -/
def asciiLower (c : Char) : Char :=
  if 65 ≤ c.toNat && c.toNat ≤ 90 then Char.ofNat (c.toNat + 32) else c

/-- Literal string, case sensitive. -/
def mLitChars : List Char → Matcher
  | [] => mEps
  | c :: cs => mSeq (mCh (fun d => d == c)) (mLitChars cs)

def mLit (s : String) : Matcher := mLitChars s.data

/-- Literal string, case insensitive (`i` flag). -/
def mLitCIChars : List Char → Matcher
  | [] => mEps
  | c :: cs => mSeq (mCh (fun d => asciiLower d == asciiLower c)) (mLitCIChars cs)

def mLitCI (s : String) : Matcher := mLitCIChars s.data

/-- The JS whitespace class `\s` (also the set removed by `String.trim`). -/
def jsWs (c : Char) : Bool :=
  let n := c.toNat
  n == 32 || n == 9 || n == 10 || n == 13 || n == 11 || n == 12 ||
  n == 0xa0 || n == 0x1680 || (0x2000 ≤ n && n ≤ 0x200a) ||
  n == 0x2028 || n == 0x2029 || n == 0x202f || n == 0x205f ||
  n == 0x3000 || n == 0xfeff

/-- The JS dot `.` without the `s` flag: any char but a line terminator. -/
def jsDot (c : Char) : Bool :=
  let n := c.toNat
  !(n == 10 || n == 13 || n == 0x2028 || n == 0x2029)

/-- `[a-zA-Z0-9]`. -/
def alnumCh (c : Char) : Bool :=
  let n := c.toNat
  (97 ≤ n && n ≤ 122) || (65 ≤ n && n ≤ 90) || (48 ≤ n && n ≤ 57)

/-- `[A-Z ]`. -/
def upperOrSpaceCh (c : Char) : Bool :=
  let n := c.toNat
  (65 ≤ n && n ≤ 90) || n == 32

/-- `["']`. -/
def quoteCh (c : Char) : Bool := c == '"' || c == '\''

/-- `[=:]`. -/
def eqColonCh (c : Char) : Bool := c == '=' || c == ':'

/-- `[^"']`. -/
def notQuoteCh (c : Char) : Bool := !(c == '"' || c == '\'')

/-- `[(\s]`. -/
def parenOrWsCh (c : Char) : Bool := c == '(' || jsWs c

/-- `[_-]`. -/
def underscoreDashCh (c : Char) : Bool := c == '_' || c == '-'

/-- `[a-zA-Z0-9_-]`. -/
def tokenBodyCh (c : Char) : Bool := alnumCh c || c == '_' || c == '-'

/-- `RegExp.prototype.test`: is there a match starting at some position? -/
def testMatcher (m : Matcher) : List Char → Bool
  | [] => !(m []).isEmpty
  | c :: rest => !(m (c :: rest)).isEmpty || testMatcher m rest

/-- One step of global matching with fuel; mirrors the `lastIndex` discipline
of `String.prototype.match` with the `g` flag: commit to the engine's match
(head of the matcher's result list), continue after it, advance by one
character when there is no match at the current position or the committed
match is empty. -/
def countMatchesFuel (m : Matcher) : Nat → List Char → Nat
  | 0, _ => 0
  | _ + 1, [] => if (m []).isEmpty then 0 else 1
  | fuel + 1, c :: rest =>
    match m (c :: rest) with
    | [] => countMatchesFuel m fuel rest
    | r :: _ =>
      if r.length < (c :: rest).length then 1 + countMatchesFuel m fuel r
      else 1 + countMatchesFuel m fuel rest

/-- Number of matches `String.prototype.match(re)` reports for a global
regex: the fuel `length + 1` covers every scanning step, since each step
consumes at least one character of the input. -/
def countMatches (m : Matcher) (s : List Char) : Nat :=
  countMatchesFuel m (s.length + 1) s

/-- `startsWith` on character lists (helper for `String.prototype.includes`). -/
def leadsWith : List Char → List Char → Bool
  | [], _ => true
  | _ :: _, [] => false
  | a :: as, b :: bs => a == b && leadsWith as bs

/-- Substring containment on character lists. -/
def containsSub (sub : List Char) : List Char → Bool
  | [] => leadsWith sub []
  | c :: rest => leadsWith sub (c :: rest) || containsSub sub rest

/-- `String.prototype.includes`. -/
def includesStr (sub s : String) : Bool := containsSub sub.data s.data

/-- `String.prototype.split` at a single newline character, on character
lists: no trailing-newline special-casing, the empty string yields one empty
line, and a trailing newline yields a final empty line. -/
def splitLinesChars : List Char → List (List Char)
  | [] => [[]]
  | c :: rest =>
    if c == '\n' then [] :: splitLinesChars rest
    else
      match splitLinesChars rest with
      | [] => [[c]]
      | l :: ls => (c :: l) :: ls

/-- `content.split("\n")` as used by the scanner and the complexity
estimator. -/
def splitLines (s : String) : List String :=
  (splitLinesChars s.data).map String.mk

inductive Severity where
  | low
  | medium
  | high
deriving DecidableEq, Repr

inductive IssueType where
  | secret
  | complexity
  | style
  | potentialBug
deriving DecidableEq, Repr

/-- The `CodeIssue` interface of the source. -/
structure CodeIssue where
  type : IssueType
  severity : Severity
  message : String
  file : Option String
  line : Option Nat
  suggestion : Option String
deriving DecidableEq, Repr

/-- The `AnalysisConfig` interface of the source. -/
structure AnalysisConfig where
  enableSecretDetection : Bool
  enableComplexityAnalysis : Bool
  maxFileSize : Nat
deriving DecidableEq, Repr

/-- The `FileAnalysis` interface of the source. -/
structure FileAnalysis where
  path : String
  language : String
  size : Nat
  complexity : Nat
  issues : List CodeIssue
  suggestions : List String
deriving DecidableEq, Repr

/-- The `CommandResult` interface of the source. -/
structure CommandResult where
  success : Bool
  output : Option String
  error : Option String
  warnings : Option (List String)
deriving DecidableEq, Repr

namespace CodeAnalyzer

/-- One entry of the `secretPatterns` table in `checkForSecrets`. -/
structure SecretRule where
  pattern : Matcher
  type : String
  suggestion : String

/-- `/api[_-]?key\s*[=:]\s*["][a-zA-Z0-9]\x7b20,\x7d["]/i` (with `["]`
standing for the class of the two quote characters). -/
def apiKeyMatcher : Matcher :=
  mSeq (mLitCI ("api"))
    (mSeq (mOpt (mCh underscoreDashCh))
      (mSeq (mLitCI ("key"))
        (mSeq (mStarCh jsWs)
          (mSeq (mCh eqColonCh)
            (mSeq (mStarCh jsWs)
              (mSeq (mCh quoteCh)
                (mSeq (mAtLeast alnumCh 20) (mCh quoteCh))))))))

/-- `/password\s*[=:]\s*["][^"]\x7b8,\x7d["]/i`. -/
def passwordMatcher : Matcher :=
  mSeq (mLitCI ("password"))
    (mSeq (mStarCh jsWs)
      (mSeq (mCh eqColonCh)
        (mSeq (mStarCh jsWs)
          (mSeq (mCh quoteCh)
            (mSeq (mAtLeast notQuoteCh 8) (mCh quoteCh))))))

/-- `/-----BEGIN [A-Z ]*PRIVATE KEY-----/`. -/
def privateKeyMatcher : Matcher :=
  mSeq (mLit ("-----BEGIN "))
    (mSeq (mStarCh upperOrSpaceCh) (mLit ("PRIVATE KEY-----")))

/-- `/token\s*[=:]\s*["][a-zA-Z0-9_-]\x7b32,\x7d["]/i`. -/
def tokenMatcher : Matcher :=
  mSeq (mLitCI ("token"))
    (mSeq (mStarCh jsWs)
      (mSeq (mCh eqColonCh)
        (mSeq (mStarCh jsWs)
          (mSeq (mCh quoteCh)
            (mSeq (mAtLeast tokenBodyCh 32) (mCh quoteCh))))))

/-- The `secretPatterns` table of `checkForSecrets`. -/
def secretPatterns : List SecretRule :=
  [ { pattern := apiKeyMatcher
      type := "API key"
      suggestion := "Move to environment variable or config file" }
  , { pattern := passwordMatcher
      type := "Password"
      suggestion := "Use environment variables or secure config" }
  , { pattern := privateKeyMatcher
      type := "Private key"
      suggestion := "Store private keys securely, not in code" }
  , { pattern := tokenMatcher
      type := "Token"
      suggestion := "Use environment variables for tokens" } ]

/-- The issue pushed by `checkForSecrets` for a matching rule. -/
def secretIssueOf (r : SecretRule) (lineNumber : Nat) (filePath : String) : CodeIssue :=
  { type := IssueType.secret
    severity := Severity.high
    message := "Potential " ++ r.type ++ " found in code"
    file := some filePath
    line := some lineNumber
    suggestion := some r.suggestion }

/-- `CodeAnalyzer.checkForSecrets`: one finding per rule whose pattern tests
true, suppressed whenever the line includes either environment-variable
indirection marker. -/
def checkForSecrets (line : String) (lineNumber : Nat) (filePath : String) : List CodeIssue :=
  secretPatterns.flatMap fun r =>
    if testMatcher r.pattern line.data
        && !(includesStr ("process.env") line)
        && !(includesStr ("$ENV") line)
    then [secretIssueOf r lineNumber filePath]
    else []

/-- One entry of the `commonIssues` table in `checkForCommonIssues`. -/
structure CommonRule where
  pattern : Matcher
  message : String
  severity : Severity
  suggestion : String

/-- `/console\.log\(/`. -/
def consoleLogMatcher : Matcher := mLit ("console.log(")

/-- `/TODO:|FIXME:|HACK:/i`. -/
def todoMatcher : Matcher :=
  mAlt (mLitCI ("TODO:")) (mAlt (mLitCI ("FIXME:")) (mLitCI ("HACK:")))

/-- `/eval\s*\(/`. -/
def evalCallMatcher : Matcher :=
  mSeq (mLit ("eval")) (mSeq (mStarCh jsWs) (mLit ("(")))

/-- The `commonIssues` table of `checkForCommonIssues`. -/
def commonIssueRules : List CommonRule :=
  [ { pattern := consoleLogMatcher
      message := "Console.log statement (consider removing for production)"
      severity := Severity.low
      suggestion := "Use a proper logging library or remove debug logs" }
  , { pattern := todoMatcher
      message := "TODO/FIXME comment found"
      severity := Severity.low
      suggestion := "Consider addressing this comment or creating an issue" }
  , { pattern := evalCallMatcher
      message := "Use of eval() can be dangerous"
      severity := Severity.medium
      suggestion := "Consider safer alternatives to eval()" } ]

/-- The issue pushed by `checkForCommonIssues` for a matching rule. -/
def commonIssueOf (r : CommonRule) (lineNumber : Nat) (filePath : String) : CodeIssue :=
  { type := IssueType.potentialBug
    severity := r.severity
    message := r.message
    file := some filePath
    line := some lineNumber
    suggestion := some r.suggestion }

/-- `CodeAnalyzer.checkForCommonIssues`. -/
def checkForCommonIssues (line : String) (lineNumber : Nat) (filePath : String) : List CodeIssue :=
  commonIssueRules.flatMap fun r =>
    if testMatcher r.pattern line.data
    then [commonIssueOf r lineNumber filePath]
    else []

/-- `CodeAnalyzer.analyzeFile`.  The file read is an explicit input: `.ok`
carries the decoded content, `.error` the stringified error.  On success the
content is split on newlines and each line is scanned by both rule families
with 1-based line numbers; on failure a single synthetic finding is returned. -/
def analyzeFile (readResult : Except String String) (filePath : String) : List CodeIssue :=
  match readResult with
  | Except.error e =>
    [ { type := IssueType.potentialBug
        severity := Severity.low
        message := "Could not read file: " ++ e
        file := some filePath
        line := none
        suggestion := none } ]
  | Except.ok content =>
    (splitLines content).enum.flatMap fun p =>
      checkForSecrets p.2 (p.1 + 1) filePath ++ checkForCommonIssues p.2 (p.1 + 1) filePath

end CodeAnalyzer

namespace FileService

/-- `/if\s*\(/g`. -/
def ifMatcher : Matcher := mSeq (mLit ("if")) (mSeq (mStarCh jsWs) (mLit ("(")))

/-- `/else/g`. -/
def elseMatcher : Matcher := mLit ("else")

/-- `/switch\s*\(/g`. -/
def switchMatcher : Matcher := mSeq (mLit ("switch")) (mSeq (mStarCh jsWs) (mLit ("(")))

/-- `/case\s+/g`. -/
def caseMatcher : Matcher := mSeq (mLit ("case")) (mPlusCh jsWs)

/-- `/\?\s*.*:/g`. -/
def ternaryMatcher : Matcher :=
  mSeq (mLit ("?")) (mSeq (mStarCh jsWs) (mSeq (mStarCh jsDot) (mLit (":"))))

/-- `/for\s*[(\s]/g`. -/
def forMatcher : Matcher := mSeq (mLit ("for")) (mSeq (mStarCh jsWs) (mCh parenOrWsCh))

/-- `/while\s*\(/g`. -/
def whileMatcher : Matcher := mSeq (mLit ("while")) (mSeq (mStarCh jsWs) (mLit ("(")))

/-- `/do\s*\x7b/g`. -/
def doMatcher : Matcher := mSeq (mLit ("do")) (mSeq (mStarCh jsWs) (mCh (fun c => c == '\x7b')))

/-- `/\.forEach/g`. -/
def forEachMatcher : Matcher := mLit (".forEach")

/-- `/\.map/g`. -/
def dotMapMatcher : Matcher := mLit (".map")

/-- The `patterns.conditionals` table of `calculateComplexity`. -/
def conditionalPatterns : List Matcher :=
  [ifMatcher, elseMatcher, switchMatcher, caseMatcher, ternaryMatcher]

/-- The `patterns.loops` table of `calculateComplexity`. -/
def loopPatterns : List Matcher :=
  [forMatcher, whileMatcher, doMatcher, forEachMatcher, dotMapMatcher]

/-- `line.trim().length > 0`: the line has a character outside the JS
whitespace set. -/
def trimNonEmpty (line : String) : Bool := line.data.any (fun c => !(jsWs c))

/-- The lines `calculateComplexity` retains: split on newlines, drop lines
that are blank after trimming. -/
def complexityLines (content : String) : List String :=
  (splitLines content).filter trimNonEmpty

/-- Sum over the retained lines of the global-match counts of a pattern
family (the `conditionals` / `loops` accumulators of `calculateComplexity`). -/
def countFamily (pats : List Matcher) (lines : List String) : Nat :=
  (lines.map (fun line => (pats.map (fun p => countMatches p line.data)).sum)).sum

/-- Total number of matched conditional and loop tokens in a content. -/
def tokenCount (content : String) : Nat :=
  countFamily conditionalPatterns (complexityLines content)
    + countFamily loopPatterns (complexityLines content)

/-- The arithmetic shape of the score: base 1 plus the token count, capped
at 100 (`Math.min(100, complexity)`). -/
def clampScore (n : Nat) : Nat := Nat.min 100 (1 + n)

/-- `FileService.calculateComplexity`.  The read is an explicit input; the
`catch` branch returns 1. -/
def calculateComplexity (readResult : Except String String) : Nat :=
  match readResult with
  | Except.error _ => 1
  | Except.ok content =>
    Nat.min 100 (1 + (countFamily conditionalPatterns (complexityLines content)
      + countFamily loopPatterns (complexityLines content)))

/-- The `languageMap` table of `detectLanguage`. -/
def languageMap : List (String × String) :=
  [ (".js", "javascript"), (".mjs", "javascript"), (".ts", "typescript")
  , (".jsx", "jsx"), (".tsx", "tsx"), (".py", "python"), (".java", "java")
  , (".cpp", "cpp"), (".c", "c"), (".cs", "csharp"), (".php", "php")
  , (".rb", "ruby"), (".go", "go"), (".rs", "rust"), (".sh", "shell")
  , (".bash", "shell"), (".zsh", "shell"), (".ps1", "powershell")
  , (".sql", "sql"), (".html", "html"), (".css", "css"), (".scss", "scss")
  , (".sass", "sass"), (".json", "json"), (".xml", "xml"), (".yaml", "yaml")
  , (".yml", "yaml"), (".toml", "toml"), (".md", "markdown")
  , (".dockerfile", "docker"), (".vue", "vue"), (".svelte", "svelte") ]

/-- The basename: characters after the last path separator. -/
def lastSegment (s : List Char) : List Char :=
  s.foldl (fun acc c => if c == '/' then [] else acc ++ [c]) []

/-- Index of the last dot of the basename, if any. -/
def lastDotIdx (base : List Char) : Option Nat :=
  ((base.enum.filter (fun p => p.2 == '.')).map (fun p => p.1)).getLast?

/-- `path.extname`: extension of the basename from its last dot; empty when
there is no dot or the only dot leads the basename (dot-files). -/
def extname (p : String) : String :=
  let base := lastSegment p.data
  match lastDotIdx base with
  | none => ""
  | some 0 => ""
  | some i => String.mk (base.drop i)

/-- `FileService.detectLanguage`: lower-cased extension looked up in the
static table, defaulting to the generic text tag. -/
def detectLanguage (filePath : String) : String :=
  let ext := String.mk ((extname filePath).data.map asciiLower)
  (languageMap.lookup ext).getD ("text")

/-- Decimal rendering of `size` bytes in MiB with one fractional digit;
models the `(size / 1024 / 1024).toFixed(1)` interpolation (round to
nearest tenth, half up). -/
def mbString (size : Nat) : String :=
  let tenths := (size * 10 + 524288) / 1048576
  toString (tenths / 10) ++ "." ++ toString (tenths % 10)

/-- `FileService.generateSuggestions`: the five additive checks, in source
order. -/
def generateSuggestions (issues : List CodeIssue) (complexity : Nat) (language : String) : List String :=
  (if complexity > 20
    then ["Consider breaking this file into smaller, more focused modules"] else [])
  ++ (if complexity > 50
    then ["High complexity detected - refactoring recommended"] else [])
  ++ (if (issues.filter (fun i => i.type == IssueType.secret)).length > 0
    then ["Move sensitive data to environment variables or secure config files"] else [])
  ++ (if (issues.filter (fun i => includesStr ("TODO") i.message)).length > 3
    then ["Consider addressing TODO comments or creating issues for them"] else [])
  ++ (if language == "javascript" || language == "typescript"
    then ["Consider using ESLint and Prettier for code quality"] else [])

/-- `FileService.analyzeFile`.  The stat size and the file read are explicit
inputs (the analyzer and the complexity estimator read the same file, so
they receive the same read result). -/
def analyzeFile (config : AnalysisConfig) (filePath : String) (size : Nat)
    (readResult : Except String String) : FileAnalysis :=
  if size > config.maxFileSize then
    { path := filePath
      language := detectLanguage filePath
      size := size
      complexity := 0
      issues :=
        [ { type := IssueType.potentialBug
            severity := Severity.low
            message := "File too large to analyze (" ++ mbString size ++ "MB)"
            file := none
            line := none
            suggestion := some ("Consider breaking this file into smaller modules") } ]
      suggestions := ["File is too large - consider refactoring into smaller files"] }
  else
    let language := detectLanguage filePath
    let issues :=
      if config.enableSecretDetection then CodeAnalyzer.analyzeFile readResult filePath else []
    let complexity :=
      if config.enableComplexityAnalysis then calculateComplexity readResult else 0
    { path := filePath
      language := language
      size := size
      complexity := complexity
      issues := issues
      suggestions := generateSuggestions issues complexity language }

/-- `FileService.analyzeFiles`.  File-system facts are explicit inputs:
whether the target path exists, whether it is a directory, the per-file
outcome of `analyzeFile` for each enumerated file (in enumeration order;
`.error` when that file's analysis threw), and the outcome for the target
itself in the non-directory case.  In the directory branch each failure is
caught and skipped; in the single-file branch there is no catch. -/
def analyzeFiles (targetPath : String) (targetExists : Bool) (isDirectory : Bool)
    (dirResults : List (Except String FileAnalysis))
    (singleResult : Except String FileAnalysis) : Except String (List FileAnalysis) :=
  if targetExists = false then
    Except.error ("Path does not exist: " ++ targetPath)
  else if isDirectory then
    Except.ok (dirResults.foldl
      (fun acc r => match r with
        | Except.ok a => acc ++ [a]
        | Except.error _ => acc) [])
  else
    singleResult.map (fun a => [a])

/-- `FileService.readFile`: existence check, strict size ceiling, then the
read itself. -/
def readFile (config : AnalysisConfig) (filePath : String) (pathExists : Bool)
    (size : Nat) (readResult : Except String String) : CommandResult :=
  if pathExists = false then
    { success := false
      output := none
      error := some ("File does not exist: " ++ filePath)
      warnings := none }
  else if size > config.maxFileSize then
    { success := false
      output := none
      error := some ("File too large (" ++ mbString size ++ "MB)")
      warnings := some ["Consider viewing this file in chunks or using a dedicated viewer"] }
  else
    match readResult with
    | Except.ok content =>
      { success := true
        output := some content
        error := none
        warnings := none }
    | Except.error e =>
      { success := false
        output := none
        error := some ("Failed to read file: " ++ e)
        warnings := none }

end FileService

/-! ## Helper lemmas -/

/-- A `flatMap` of guarded singletons is a filtered map. -/
theorem flatMap_guard {α β : Type _} (l : List α) (p : α → Bool) (f : α → β) :
    (l.flatMap fun r => if p r then [f r] else []) = (l.filter p).map f := by
  induction l with
  | nil => rfl
  | cons a as ih =>
    by_cases h : p a <;> simp [List.filter_cons, h, ih]

theorem leadsWith_append (xs ys : List Char) : leadsWith xs (xs ++ ys) = true := by
  induction xs with
  | nil => rfl
  | cons c cs ih => simp [leadsWith, ih]

/-- A list contains every one of its prefixes as a substring. -/
theorem containsSub_append_left (xs ys : List Char) : containsSub xs (xs ++ ys) = true := by
  cases hxy : xs ++ ys with
  | nil =>
    have hx : xs = [] := by
      cases xs with
      | nil => rfl
      | cons a as => simp at hxy
    subst hx
    rfl
  | cons c rest =>
    rw [containsSub, ← hxy, leadsWith_append]
    rfl

/-- `(p ++ e).includes(p)` always holds. -/
theorem includesStr_append_left (p e : String) : includesStr p (p ++ e) = true := by
  unfold includesStr
  rw [String.data_append]
  exact containsSub_append_left p.data e.data

/-! ## Claim theorems -/

/-- C1: For every input line that contains either environment-variable
indirection marker (the substring `process.env` or the substring `$ENV`),
`checkForSecrets` produces no secret finding for that line, even if the line
also matches one of the secret patterns. -/
theorem secret_findings_suppressed_by_env_markers
    (line : String) (lineNumber : Nat) (filePath : String)
    (h : includesStr ("process.env") line = true ∨ includesStr ("$ENV") line = true) :
    CodeAnalyzer.checkForSecrets line lineNumber filePath = [] := by
  unfold CodeAnalyzer.checkForSecrets
  rcases h with h | h <;>
    simp [CodeAnalyzer.secretPatterns, h]

/-- Witness for C1: a line whose shape matches the password pattern but which
mentions `process.env` yields no finding. -/
theorem secret_findings_suppressed_by_env_markers_witness :
    testMatcher CodeAnalyzer.passwordMatcher
      ("password = \"hunter2hunter2\" // process.env").data = true
    ∧ CodeAnalyzer.checkForSecrets
        ("password = \"hunter2hunter2\" // process.env") 1 ("a.js") = [] :=
  ⟨by decide,
   secret_findings_suppressed_by_env_markers _ 1 _ (Or.inl (by decide))⟩

/-- C2: For every line free of both indirection markers, `checkForSecrets`
emits exactly one finding per rule whose pattern matches the line, each of
type secret and severity high. -/
theorem secret_findings_one_per_matching_rule
    (line : String) (lineNumber : Nat) (filePath : String)
    (h1 : includesStr ("process.env") line = false)
    (h2 : includesStr ("$ENV") line = false) :
    CodeAnalyzer.checkForSecrets line lineNumber filePath
      = (CodeAnalyzer.secretPatterns.filter
          (fun r => testMatcher r.pattern line.data)).map
          (fun r => CodeAnalyzer.secretIssueOf r lineNumber filePath)
    ∧ ∀ i ∈ CodeAnalyzer.checkForSecrets line lineNumber filePath,
        i.type = IssueType.secret ∧ i.severity = Severity.high := by
  have hmain : CodeAnalyzer.checkForSecrets line lineNumber filePath
      = (CodeAnalyzer.secretPatterns.filter
          (fun r => testMatcher r.pattern line.data)).map
          (fun r => CodeAnalyzer.secretIssueOf r lineNumber filePath) := by
    unfold CodeAnalyzer.checkForSecrets
    simp only [h1, h2, Bool.not_false, Bool.and_true]
    exact flatMap_guard _ _ _
  refine ⟨hmain, ?_⟩
  intro i hi
  rw [hmain] at hi
  simp only [List.mem_map] at hi
  obtain ⟨r, _, rfl⟩ := hi
  exact ⟨rfl, rfl⟩

/-- Witness for C2: the API-key sample line matches exactly the rules the
filtered table names, and each resulting finding is a high-severity secret. -/
theorem secret_findings_one_per_matching_rule_witness :
    CodeAnalyzer.checkForSecrets
        ("const api_key = \"abcdef1234567890abcdef1234567890\";") 1 ("a.js")
      = (CodeAnalyzer.secretPatterns.filter
          (fun r => testMatcher r.pattern
            ("const api_key = \"abcdef1234567890abcdef1234567890\";").data)).map
          (fun r => CodeAnalyzer.secretIssueOf r 1 ("a.js"))
    ∧ ∀ i ∈ CodeAnalyzer.checkForSecrets
        ("const api_key = \"abcdef1234567890abcdef1234567890\";") 1 ("a.js"),
        i.type = IssueType.secret ∧ i.severity = Severity.high :=
  secret_findings_one_per_matching_rule _ 1 _ (by decide) (by decide)

/-- C3: On a successful read the complexity score is the clamp at 100 of one
plus the total matched-token count; the clamp is monotone in the token count,
and for any input (read success or failure) the score lies in `[1, 100]`. -/
theorem complexity_clamped_monotone_bounded
    (content : String) (r : Except String String) :
    FileService.calculateComplexity (Except.ok content)
      = FileService.clampScore (FileService.tokenCount content)
    ∧ (∀ a b : Nat, a ≤ b → FileService.clampScore a ≤ FileService.clampScore b)
    ∧ 1 ≤ FileService.calculateComplexity r
    ∧ FileService.calculateComplexity r ≤ 100 := by
  refine ⟨rfl, ?_, ?_, ?_⟩
  · intro a b h
    unfold FileService.clampScore Nat.min
    rw [Nat.min_def, Nat.min_def]
    split <;> split <;> omega
  · cases r with
    | error e => simp [FileService.calculateComplexity]
    | ok c =>
      simp only [FileService.calculateComplexity]
      unfold Nat.min
      rw [Nat.min_def]
      split <;> omega
  · cases r with
    | error e => simp [FileService.calculateComplexity]
    | ok c =>
      simp only [FileService.calculateComplexity]
      unfold Nat.min
      rw [Nat.min_def]
      split <;> omega

/-- Witness for C3 at a concrete content with one conditional and one loop. -/
theorem complexity_clamped_monotone_bounded_witness :
    FileService.calculateComplexity (Except.ok ("if (a) \x7b while (b) \x7d"))
      = FileService.clampScore (FileService.tokenCount ("if (a) \x7b while (b) \x7d")) :=
  (complexity_clamped_monotone_bounded ("if (a) \x7b while (b) \x7d") (Except.error ("e"))).1

/-- Sanity evaluation: that content scores 1 + 1 + 1 = 3. -/
theorem calculateComplexity_sample_eval :
    FileService.calculateComplexity (Except.ok ("if (a) \x7b while (b) \x7d")) = 3 := by
  decide

/-- C4: A file strictly over the size ceiling yields a report with exactly
one finding (a low-severity notice), exactly one suggestion and complexity 0,
and the result does not depend on the read result or on the two feature
toggles — neither the scanner nor the estimator is consulted. -/
theorem oversize_file_single_finding_no_scan
    (config : AnalysisConfig) (filePath : String) (size : Nat)
    (readResult : Except String String)
    (h : size > config.maxFileSize) :
    (FileService.analyzeFile config filePath size readResult).issues.length = 1
    ∧ (∀ i ∈ (FileService.analyzeFile config filePath size readResult).issues,
        i.type = IssueType.potentialBug ∧ i.severity = Severity.low)
    ∧ (FileService.analyzeFile config filePath size readResult).suggestions.length = 1
    ∧ (FileService.analyzeFile config filePath size readResult).complexity = 0
    ∧ (∀ (r2 : Except String String) (b1 b2 : Bool),
        FileService.analyzeFile ⟨b1, b2, config.maxFileSize⟩ filePath size r2
          = FileService.analyzeFile config filePath size readResult) := by
  refine ⟨?_, ?_, ?_, ?_, ?_⟩
  · simp [FileService.analyzeFile, h]
  · simp [FileService.analyzeFile, h]
  · simp [FileService.analyzeFile, h]
  · simp [FileService.analyzeFile, h]
  · intro r2 b1 b2
    simp [FileService.analyzeFile, h]

/-- Witness for C4: an 11-byte file against a 10-byte ceiling, with content
that would otherwise produce findings and a nonzero score. -/
theorem oversize_file_single_finding_no_scan_witness :
    (FileService.analyzeFile ⟨true, true, 10⟩ ("big.js") 11
        (Except.ok ("if (x) eval (y)"))).issues.length = 1
    ∧ (∀ i ∈ (FileService.analyzeFile ⟨true, true, 10⟩ ("big.js") 11
        (Except.ok ("if (x) eval (y)"))).issues,
        i.type = IssueType.potentialBug ∧ i.severity = Severity.low)
    ∧ (FileService.analyzeFile ⟨true, true, 10⟩ ("big.js") 11
        (Except.ok ("if (x) eval (y)"))).suggestions.length = 1
    ∧ (FileService.analyzeFile ⟨true, true, 10⟩ ("big.js") 11
        (Except.ok ("if (x) eval (y)"))).complexity = 0
    ∧ (∀ (r2 : Except String String) (b1 b2 : Bool),
        FileService.analyzeFile ⟨b1, b2, (10 : Nat)⟩ ("big.js") 11 r2
          = FileService.analyzeFile ⟨true, true, 10⟩ ("big.js") 11
              (Except.ok ("if (x) eval (y)"))) :=
  oversize_file_single_finding_no_scan ⟨true, true, 10⟩ ("big.js") 11
    (Except.ok ("if (x) eval (y)")) (by decide)

/-- C5: A failed read makes the scanner return exactly one finding, of kind
potential-bug and severity low, whose message starts with the could-not-read
indicator and which carries no line number; the complexity estimator returns
1 on the same failed read. -/
theorem read_failure_single_finding_complexity_one
    (e filePath : String) :
    CodeAnalyzer.analyzeFile (Except.error e) filePath
      = [ { type := IssueType.potentialBug
            severity := Severity.low
            message := "Could not read file: " ++ e
            file := some filePath
            line := none
            suggestion := none } ]
    ∧ (∀ i ∈ CodeAnalyzer.analyzeFile (Except.error e) filePath,
        includesStr ("Could not read file") i.message = true
        ∧ i.line = none
        ∧ i.type = IssueType.potentialBug
        ∧ i.severity = Severity.low)
    ∧ FileService.calculateComplexity (Except.error e) = 1 := by
  refine ⟨rfl, ?_, rfl⟩
  intro i hi
  simp only [CodeAnalyzer.analyzeFile, List.mem_singleton] at hi
  subst hi
  refine ⟨?_, rfl, rfl, rfl⟩
  have h1 : ("Could not read file: " : String) = "Could not read file" ++ ": " := rfl
  simp only [h1, String.append_assoc]
  exact includesStr_append_left _ _

/-- Every finding `checkForSecrets` pushes carries the line number it was
called with. -/
theorem line_of_mem_checkForSecrets {i : CodeIssue} {line : String} {n : Nat}
    {fp : String} (h : i ∈ CodeAnalyzer.checkForSecrets line n fp) :
    i.line = some n := by
  unfold CodeAnalyzer.checkForSecrets at h
  rw [List.mem_flatMap] at h
  obtain ⟨r, _, h⟩ := h
  split at h
  · rw [List.mem_singleton] at h
    subst h
    rfl
  · exact absurd h (List.not_mem_nil i)

/-- Every finding `checkForCommonIssues` pushes carries the line number it
was called with. -/
theorem line_of_mem_checkForCommonIssues {i : CodeIssue} {line : String}
    {n : Nat} {fp : String} (h : i ∈ CodeAnalyzer.checkForCommonIssues line n fp) :
    i.line = some n := by
  unfold CodeAnalyzer.checkForCommonIssues at h
  rw [List.mem_flatMap] at h
  obtain ⟨r, _, h⟩ := h
  split at h
  · rw [List.mem_singleton] at h
    subst h
    rfl
  · exact absurd h (List.not_mem_nil i)

/-- C6: On a successful read the scanner output is exactly the concatenation,
over the newline-split lines in order, of the secret findings followed by the
common-issue findings of each line at its 1-based index; its length is the
sum of the per-line, per-family match counts (nothing is deduplicated or cut
short), and every finding carries a 1-based line number within range. -/
theorem scanner_reports_all_rules_per_line
    (content filePath : String) :
    CodeAnalyzer.analyzeFile (Except.ok content) filePath
      = (splitLines content).enum.flatMap (fun p =>
          CodeAnalyzer.checkForSecrets p.2 (p.1 + 1) filePath
            ++ CodeAnalyzer.checkForCommonIssues p.2 (p.1 + 1) filePath)
    ∧ (CodeAnalyzer.analyzeFile (Except.ok content) filePath).length
      = ((splitLines content).enum.map (fun p =>
          (CodeAnalyzer.checkForSecrets p.2 (p.1 + 1) filePath).length
            + (CodeAnalyzer.checkForCommonIssues p.2 (p.1 + 1) filePath).length)).sum
    ∧ ∀ i ∈ CodeAnalyzer.analyzeFile (Except.ok content) filePath,
        ∃ k, k < (splitLines content).length ∧ i.line = some (k + 1) := by
  refine ⟨rfl, ?_, ?_⟩
  · show ((splitLines content).enum.flatMap _).length = _
    rw [List.length_flatMap]
    simp [Function.comp_def, List.length_append]
  · intro i hi
    unfold CodeAnalyzer.analyzeFile at hi
    rw [List.mem_flatMap] at hi
    obtain ⟨p, hp, hmem⟩ := hi
    refine ⟨p.1, ?_, ?_⟩
    · have hlt := List.fst_lt_add_of_mem_enumFrom (n := 0) hp
      simpa using hlt
    · rcases List.mem_append.mp hmem with hm | hm
      · exact line_of_mem_checkForSecrets hm
      · exact line_of_mem_checkForCommonIssues hm

/-- Membership in a guarded singleton. -/
theorem mem_guard {β : Type _} {a b : β} {c : Prop} [Decidable c] :
    (a ∈ if c then [b] else ([] : List β)) ↔ c ∧ a = b := by
  by_cases h : c <;> simp [h]

/-- C7: The derived suggestion list is the concatenation of the five checks
in source order, and each fixed suggestion string is present exactly when its
condition holds: modules split iff complexity over 20, refactoring iff over
50, secure-config iff some secret finding exists, address-TODOs iff more
than three findings mention TODO, linting iff the language tag is javascript
or typescript. -/
theorem suggestions_additive_in_check_order
    (issues : List CodeIssue) (complexity : Nat) (language : String) :
    FileService.generateSuggestions issues complexity language
      = (if complexity > 20
          then ["Consider breaking this file into smaller, more focused modules"] else [])
        ++ (if complexity > 50
          then ["High complexity detected - refactoring recommended"] else [])
        ++ (if (issues.filter (fun i => i.type == IssueType.secret)).length > 0
          then ["Move sensitive data to environment variables or secure config files"] else [])
        ++ (if (issues.filter (fun i => includesStr ("TODO") i.message)).length > 3
          then ["Consider addressing TODO comments or creating issues for them"] else [])
        ++ (if language == "javascript" || language == "typescript"
          then ["Consider using ESLint and Prettier for code quality"] else [])
    ∧ ("Consider breaking this file into smaller, more focused modules"
        ∈ FileService.generateSuggestions issues complexity language ↔ complexity > 20)
    ∧ ("High complexity detected - refactoring recommended"
        ∈ FileService.generateSuggestions issues complexity language ↔ complexity > 50)
    ∧ ("Move sensitive data to environment variables or secure config files"
        ∈ FileService.generateSuggestions issues complexity language
        ↔ ∃ i ∈ issues, i.type = IssueType.secret)
    ∧ ("Consider addressing TODO comments or creating issues for them"
        ∈ FileService.generateSuggestions issues complexity language
        ↔ (issues.filter (fun i => includesStr ("TODO") i.message)).length > 3)
    ∧ ("Consider using ESLint and Prettier for code quality"
        ∈ FileService.generateSuggestions issues complexity language
        ↔ (language = "javascript" ∨ language = "typescript")) := by
  refine ⟨rfl, ?_, ?_, ?_, ?_, ?_⟩
  · simp +decide [FileService.generateSuggestions, List.mem_append, mem_guard]
  · simp +decide [FileService.generateSuggestions, List.mem_append, mem_guard]
  · simp +decide [FileService.generateSuggestions, List.mem_append, mem_guard]
    constructor
    · intro h
      obtain ⟨a, ha⟩ := List.length_pos_iff_exists_mem.mp h
      rw [List.mem_filter] at ha
      exact ⟨a, ha.1, by simpa using ha.2⟩
    · intro ⟨a, hmem, hty⟩
      apply List.length_pos_iff_exists_mem.mpr
      exact ⟨a, List.mem_filter.mpr ⟨hmem, by simpa using hty⟩⟩
  · simp +decide [FileService.generateSuggestions, List.mem_append, mem_guard]
  · simp +decide [FileService.generateSuggestions, List.mem_append, mem_guard]

/-- The directory-branch accumulator of `analyzeFiles`: pushing the payloads
of the successful per-file outcomes is a `filterMap` in enumeration order. -/
theorem foldl_push_eq (rs : List (Except String FileAnalysis)) (acc : List FileAnalysis) :
    rs.foldl (fun acc r => match r with
      | Except.ok a => acc ++ [a]
      | Except.error _ => acc) acc
      = acc ++ rs.filterMap Except.toOption := by
  induction rs generalizing acc with
  | nil => simp
  | cons r rest ih =>
    cases r with
    | ok a => simp [ih, Except.toOption, List.filterMap_cons]
    | error e => simp [ih, Except.toOption, List.filterMap_cons]

/-- C8: If the target path does not exist the batch call fails with the
path error no matter what the per-file outcomes are (no per-file work can
influence it); otherwise, over a directory, the call always succeeds with the
successful analyses in enumeration order, and inserting a failing file
anywhere leaves the result unchanged. -/
theorem batch_continues_after_file_failure :
    (∀ (tp : String) (d : Bool) (rs : List (Except String FileAnalysis))
        (sr : Except String FileAnalysis),
        FileService.analyzeFiles tp false d rs sr
          = Except.error ("Path does not exist: " ++ tp))
    ∧ (∀ (tp : String) (rs : List (Except String FileAnalysis))
        (sr : Except String FileAnalysis),
        FileService.analyzeFiles tp true true rs sr
          = Except.ok (rs.filterMap Except.toOption))
    ∧ (∀ (tp e : String) (a b : List (Except String FileAnalysis))
        (sr : Except String FileAnalysis),
        FileService.analyzeFiles tp true true (a ++ Except.error e :: b) sr
          = FileService.analyzeFiles tp true true (a ++ b) sr) := by
  refine ⟨?_, ?_, ?_⟩
  · intro tp d rs sr
    simp [FileService.analyzeFiles]
  · intro tp rs sr
    simp [FileService.analyzeFiles, foldl_push_eq]
  · intro tp e a b sr
    simp [FileService.analyzeFiles, foldl_push_eq, List.filterMap_append,
      List.filterMap_cons, Except.toOption]

/-- C9: Within the size limit, disabling the secret-detection toggle makes
the issues list of the report empty for every read result — common-issue
findings and the read-failure finding are suppressed along with secret
findings. -/
theorem secret_toggle_disables_all_findings
    (config : AnalysisConfig) (filePath : String) (size : Nat)
    (readResult : Except String String)
    (hsize : ¬ size > config.maxFileSize)
    (hoff : config.enableSecretDetection = false) :
    (FileService.analyzeFile config filePath size readResult).issues = [] := by
  simp [FileService.analyzeFile, hsize, hoff]

/-- Witness for C9: with the toggle off, content full of common issues (a
debug print, a TODO marker, an eval call) yields an empty issues list. -/
theorem secret_toggle_disables_all_findings_witness :
    (FileService.analyzeFile ⟨false, true, 100⟩ ("a.js") 50
        (Except.ok ("console.log(1); // TODO: eval (x)"))).issues = [] :=
  secret_toggle_disables_all_findings ⟨false, true, 100⟩ ("a.js") 50
    (Except.ok ("console.log(1); // TODO: eval (x)")) (by decide) rfl

/-- C10: The oversize comparison is strict.  At a byte size exactly equal to
the ceiling, the per-file analysis result coincides (up to the recorded size)
with the analysis of the same content far under the limit — the full path,
not the skip path — and the safe read succeeds and returns the content. -/
theorem size_limit_comparison_is_strict
    (config : AnalysisConfig) (filePath : String) (r : Except String String) :
    FileService.analyzeFile config filePath config.maxFileSize r
      = { FileService.analyzeFile config filePath 0 r with size := config.maxFileSize }
    ∧ (∀ content : String,
        FileService.readFile config filePath true config.maxFileSize (Except.ok content)
          = { success := true, output := some content, error := none, warnings := none }) := by
  constructor
  · simp [FileService.analyzeFile, Nat.lt_irrefl]
  · intro content
    simp [FileService.readFile, Nat.lt_irrefl]
